import Mathlib

/-!
Shallow embedding of the zellij-statusline plugin (src/main.rs).

Modelling conventions:
* A terminal string is modelled at the granularity the program itself measures
  it: a list of grapheme clusters (`GStr`), each cluster being the list of its
  `Char`s.  The program's `display_len` strips ANSI escapes and counts
  grapheme clusters; escapes are therefore modelled as separate zero-width
  output pieces (`Piece.esc` / `Piece.reset`) and text as `Piece.txt`.
* Rust `usize` values are `Nat`s.  Where the source performs a subtraction
  that can underflow, release-mode wrapping semantics are made explicit with
  `wrapSub` (a debug build would panic at the same spots); additions that the
  source performs on `usize` before formatting are reduced `% 2 ^ 64`.
* `format!("{}", n)` on a `usize` is `natRepr`, decimal digits produced with
  enough fuel (20 digit positions) for every value below `2 ^ 64`.
* Rust's `{content:^width$}` formatter pads with spaces counted in `Char`s
  (`str::chars().count()`), not grapheme clusters; `centerPad` reproduces
  exactly that, including the extra column on the trailing side.
-/

namespace ZS

/-- Modulus of Rust `usize` arithmetic (64-bit target). -/
def USIZE : Nat := 2 ^ 64

/-- Release-mode `usize` subtraction: wraps modulo `2 ^ 64` on underflow
(a debug build panics instead at every spot where this is reachable). -/
def wrapSub (a b : Nat) : Nat := if b ≤ a then a - b else USIZE - (b - a)

/-- One grapheme cluster: the characters it consists of. -/
abbrev GC := List Char

/-- A plain (escape-free) string segmented into grapheme clusters.
Its visual width, as the program measures it, is its length. -/
abbrev GStr := List GC

/-- Total character count of a cluster list: Rust `str::chars().count()`,
the quantity the `{:^width$}` formatter pads against. -/
def gchars (s : GStr) : Nat := (s.map List.length).sum

/-- ASCII/simple text as clusters, one character per cluster. -/
def strGC (s : String) : GStr := s.toList.map (fun c => [c])

/-- The colors the plugin uses (`anstyle` values from the lazy statics;
`rgbBlack` is the distinct `RgbColor(0,0,0)` used as `BLACK`). -/
inductive Color
  | black | red | green | yellow | blue | magenta | cyan | gray | white | rgbBlack
  deriving DecidableEq

/-- `anstyle::Style`: optional foreground/background plus boldness. -/
structure Style where
  fg : Option Color := none
  bg : Option Color := none
  bold : Bool := false
  deriving DecidableEq

/-- `BG` static: ambient background (`AnsiColor::Black`). -/
def BG : Option Color := some Color.black

/-- `BLACK` static: `RgbColor(0,0,0)`. -/
def BLACK : Option Color := some Color.rgbBlack

/-- `YELLOW` static. -/
def YELLOW : Option Color := some Color.yellow

/-- `GRAY` static (`AnsiColor::White`). -/
def GRAY : Option Color := some Color.gray

/-- `GREEN` static. -/
def GREEN : Option Color := some Color.green

/-- `WHITE` static (`AnsiColor::BrightWhite`). -/
def WHITE : Option Color := some Color.white

/-- One piece of terminal output: a style escape sequence (zero visual
width), a style reset escape, or plain text. -/
inductive Piece
  | esc : Style → Piece
  | reset : Style → Piece
  | txt : GStr → Piece
  deriving DecidableEq

/-- Rendered output: the concatenation of its pieces. -/
abbrev Rendered := List Piece

/-- Visual width of one piece: escapes contribute nothing. -/
def pieceLen : Piece → Nat
  | .txt s => s.length
  | _ => 0

/-- `DisplayExt::display_len`: strip escapes, count grapheme clusters. -/
def displayLen (r : Rendered) : Nat := (r.map pieceLen).sum

/-- The three-dot ellipsis appended by truncation ("..."), three clusters. -/
def ellipsisGC : GStr := [['.'], ['.'], ['.']]

/-- Truncation step of `impl Display for Segment`: if the cluster count
exceeds `maxw`, keep `maxw - 3` clusters and append "..." (the subtraction
wraps in release / panics in debug when `maxw < 3`). -/
def truncate (s : GStr) (maxw : Nat) : GStr :=
  if maxw < s.length then s.take (wrapSub maxw 3) ++ ellipsisGC else s

/-- Rust's centered padding `{content:^width$}`: pads with spaces when the
character count (not the cluster count) is below `minw`; the extra space of
an odd padding goes to the right. -/
def centerPad (s : GStr) (minw : Nat) : GStr :=
  if gchars s < minw then
    List.replicate ((minw - gchars s) / 2) ([' '] : GC) ++ s
      ++ List.replicate ((minw - gchars s + 1) / 2) ([' '] : GC)
  else s

/-- Fuel-driven reversed decimal digits; fuel 20 covers all of `usize`. -/
def digitsRevAux : Nat → Nat → List Nat
  | 0, _ => []
  | f + 1, n => if n < 10 then [n] else n % 10 :: digitsRevAux f (n / 10)

/-- `format!("{}", n)` for `usize` `n`, as grapheme clusters (each digit is
one single-character cluster); exact for every `n < 10 ^ 20 > 2 ^ 64`. -/
def natRepr (n : Nat) : GStr :=
  ((digitsRevAux 20 n).reverse).map (fun d => [Char.ofNat (48 + d)])

/-- The fields of `zellij_tile::TabInfo` the program reads. -/
structure TabInfo where
  position : Nat
  name : GStr
  active : Bool
  is_fullscreen_active : Bool := false
  is_sync_panes_active : Bool := false
  deriving DecidableEq

/-- `Segment` (main.rs): content, style, width contract, paddings and caps.
Defaults are those of `impl Default for Segment`. -/
structure Segment where
  content : GStr
  style : Style
  min_content_width : Nat := 0
  max_content_width : Nat := 32
  padding_left : GStr := [[' ']]
  padding_right : GStr := [[' ']]
  begin_cap : GStr := []
  end_cap : GStr := []
  deriving DecidableEq

/-- The content field of a rendered segment (`{content:^width$}` after the
truncation step), excluding fixed paddings and caps. -/
def Segment.contentField (s : Segment) : GStr :=
  centerPad (truncate s.content s.max_content_width) s.min_content_width

/-- `impl Display for Segment`: begin-cap transition escape and glyph, the
segment's style, left padding, centered/truncated content, right padding,
style reset, end-cap transition escape and glyph. -/
def Segment.render (s : Segment) : Rendered :=
  [Piece.esc { fg := BG, bg := s.style.bg },
   Piece.txt s.begin_cap,
   Piece.esc s.style,
   Piece.txt s.padding_left,
   Piece.txt s.contentField,
   Piece.txt s.padding_right,
   Piece.reset s.style,
   Piece.esc { fg := s.style.bg, bg := BG },
   Piece.txt s.end_cap]

/-- `Segment::new_tab`: 1-based position, name, sync/fullscreen markers via
`format!("{}  {} {}{}", position + 1, name, sync, fullscreen)`; yellow
background when active, gray otherwise. -/
def Segment.new_tab (t : TabInfo) : Segment :=
  { content := natRepr ((t.position + 1) % USIZE) ++ [[' '], [' ']] ++ t.name ++ [[' ']]
      ++ (if t.is_sync_panes_active then [['󱍸']] else [])
      ++ (if t.is_fullscreen_active then [['󰊓']] else [])
    style := { fg := BLACK, bg := if t.active then YELLOW else GRAY } }

/-- `Segment::new_compact_tab`: active tabs keep the full form, others show
only the 1-based position number. -/
def Segment.new_compact_tab (t : TabInfo) : Segment :=
  if t.active then Segment.new_tab t
  else
    { content := natRepr ((t.position + 1) % USIZE)
      style := { fg := BLACK, bg := GRAY } }

/-- `Segment::new_range_tab(start..stop)`: a single number when the range is
empty (`stop <= start`), else `format!("{}  󰜴  {}", start + 1, stop + 1)`. -/
def Segment.new_range_tab (start stop : Nat) : Segment :=
  { content :=
      if stop ≤ start then natRepr ((start + 1) % USIZE)
      else natRepr ((start + 1) % USIZE) ++ [[' '], [' ']] ++ [['󰜴']] ++ [[' '], [' ']]
        ++ natRepr ((stop + 1) % USIZE)
    style := { fg := BLACK, bg := GRAY } }

/-- `Tabs`: the budget plus the three cached `(visual width, rendering)`
tiers; `#[derive(Default)]` zeroes everything. -/
structure Tabs where
  max_width : Nat := 0
  full : Nat × Rendered := (0, [])
  compact : Nat × Rendered := (0, [])
  fold : Nat × Rendered := (0, [])
  deriving DecidableEq

/-- `impl Display for Tabs`: full if the budget strictly exceeds its cached
width, else compact under the same test, else fold unconditionally. -/
def Tabs.display (t : Tabs) : Rendered :=
  if t.full.1 < t.max_width then t.full.2
  else if t.compact.1 < t.max_width then t.compact.2
  else t.fold.2

/-- `Tabs::new` (main.rs): builds and caches the three tiers.  `last` is
`inner.len() - 1`, which wraps for an empty list; the fold tier places range
segments around the first active tab. -/
def Tabs.new (inner : List TabInfo) : Tabs :=
  let fullR := (inner.map (fun t => (Segment.new_tab t).render)).flatten
  let compactR := (inner.map (fun t => (Segment.new_compact_tab t).render)).flatten
  let last := wrapSub inner.length 1
  let foldR :=
    match inner.find? (fun t => t.active) with
    | some active =>
      if active.position = 0 then
        (Segment.new_tab active).render ++ (Segment.new_range_tab 1 last).render
      else if active.position = last then
        (Segment.new_range_tab 0 (wrapSub last 1)).render ++ (Segment.new_tab active).render
      else
        (Segment.new_range_tab 0 (wrapSub active.position 1)).render
          ++ (Segment.new_tab active).render
          ++ (Segment.new_range_tab ((active.position + 1) % USIZE) last).render
    | none => (Segment.new_range_tab 0 last).render
  { max_width := USIZE - 1
    full := (displayLen fullR, fullR)
    compact := (displayLen compactR, compactR)
    fold := (displayLen foldR, foldR) }

/-- `zellij_tile::InputMode`, the closed mode enumeration. -/
inductive InputMode
  | normal | locked | resize | pane | tab | scroll | enterSearch | search
  | renameTab | renamePane | session | move | prompt | tmux
  deriving DecidableEq

/-- `impl Display for Mode`: the fixed label table. -/
def modeLabel : InputMode → GStr
  | .normal => strGC "NORMAL"
  | .locked => strGC "LOCKED"
  | .resize => strGC "RESIZE"
  | .pane => strGC "PANE"
  | .tab => strGC "TAB"
  | .scroll => strGC "SCROLL"
  | .enterSearch => strGC "SEARCH"
  | .search => strGC "SEARCH"
  | .renameTab => strGC "TAB"
  | .renamePane => strGC "PANE"
  | .session => strGC "SESSION"
  | .move => strGC "MOVE"
  | .prompt => strGC "PROMPT"
  | .tmux => strGC "TMUX"

/-- `Mode::color`: the fixed color table. -/
def InputMode.color : InputMode → Option Color
  | .normal => some Color.blue
  | .locked => some Color.gray
  | .tmux => some Color.red
  | .scroll => some Color.magenta
  | .enterSearch => some Color.magenta
  | .search => some Color.magenta
  | _ => some Color.yellow

/-- The mode segment built in `load`/`update`: bold, mode color background,
`min_width(10)`. -/
def modeSegment (m : InputMode) : Segment :=
  { content := modeLabel m
    style := { fg := BLACK, bg := InputMode.color m, bold := true }
    min_content_width := 10 }

/-- The session segment built on `SessionUpdate`: green background,
`min_width(10)`. -/
def sessionSegment (name : GStr) : Segment :=
  { content := name
    style := { fg := BLACK, bg := GREEN }
    min_content_width := 10 }

/-- The fields of a zellij session descriptor the program reads. -/
structure SessionInfo where
  name : GStr
  is_current_session : Bool
  deriving DecidableEq

/-- One `Box<dyn Display>` element of the compositor's lists: the shared
mode/session cells, a prerendered string, or a live clock segment (whose
content is produced from the wall clock at render time). -/
inductive Element
  | sharedMode
  | sharedSession
  | pre (r : Rendered)
  | clockSeg (s : Segment)
  deriving DecidableEq

/-- Resolve one element to output, given the shared cells' current contents
and the clock's current text `now`. -/
def elemRender (mode session : Rendered) (now : GStr) : Element → Rendered
  | .sharedMode => mode
  | .sharedSession => session
  | .pre r => r
  | .clockSeg s => Segment.render { s with content := now }

/-- `PluginState`: configuration, the two shared text cells (stored already
rendered, as the code does), the cached tab tiers and the element lists. -/
structure PluginState where
  config : List (String × String) := []
  mode : Rendered := []
  session : Rendered := []
  tabs : Tabs := {}
  left_elements : List Element := []
  right_elements : List Element := []
  deriving DecidableEq

/-- Sum of `display_len` over a list of elements. -/
def widthOf (mode session : Rendered) (now : GStr) (es : List Element) : Nat :=
  (es.map (fun e => displayLen (elemRender mode session now e))).sum

/-- Concatenated output of a list of elements. -/
def outOf (mode session : Rendered) (now : GStr) (es : List Element) : Rendered :=
  (es.map (elemRender mode session now)).flatten

/-- The combined visual width of the left and right fixed elements, the
`chars` accumulated before the tab budget is set in `render`. -/
def fixedWidth (st : PluginState) (now : GStr) : Nat :=
  widthOf st.mode st.session now st.left_elements
    + widthOf st.mode st.session now st.right_elements

/-- Style of the filler run (gray on ambient background). -/
def fillStyle : Style := { fg := GRAY, bg := BG }

/-- Width of the tab tier selected for the budget `cols - fixed` (the
subtraction wrapping as in the source). -/
def selectedTabsWidth (st : PluginState) (cols : Nat) (now : GStr) : Nat :=
  displayLen (Tabs.display { st.tabs with max_width := wrapSub cols (fixedWidth st now) })

/-- The filler emitted when the consumed width is still below `cols`:
a style escape plus `cols - chars` repeated dashes. -/
def renderFill (st : PluginState) (cols : Nat) (now : GStr) : Rendered :=
  if fixedWidth st now + selectedTabsWidth st cols now < cols then
    [Piece.esc fillStyle,
     Piece.txt (List.replicate (cols - (fixedWidth st now + selectedTabsWidth st cols now)) (['-'] : GC))]
  else []

/-- `PluginState::render`: emit left elements, pre-count right elements, set
the tab budget to `cols - chars` (wrapping), emit the selected tab tier,
the filler if space remains, then the right elements.  Returns the written
line and the mutated state (the budget write-back). -/
def PluginState.render (st : PluginState) (cols : Nat) (now : GStr) : Rendered × PluginState :=
  (outOf st.mode st.session now st.left_elements
     ++ Tabs.display { st.tabs with max_width := wrapSub cols (fixedWidth st now) }
     ++ renderFill st cols now
     ++ outOf st.mode st.session now st.right_elements,
   { st with tabs := { st.tabs with max_width := wrapSub cols (fixedWidth st now) } })

/-- The events the plugin matches on; `other` stands for every event kind
outside the three subscribed ones, all handled by the wildcard arm. -/
inductive Event
  | modeUpdate (m : InputMode)
  | sessionUpdate (ss : List SessionInfo)
  | tabUpdate (ts : List TabInfo)
  | other (n : Nat)
  deriving DecidableEq

/-- `PluginState::update`: rebuild the mode cell, the session cell (first
descriptor flagged current, if any), or the tab tiers; anything else is a
no-op returning `false`. -/
def PluginState.update (st : PluginState) (e : Event) : PluginState × Bool :=
  match e with
  | .modeUpdate m => ({ st with mode := (modeSegment m).render }, true)
  | .sessionUpdate ss =>
    match ss.find? (fun s => s.is_current_session) with
    | some s => ({ st with session := (sessionSegment s.name).render }, true)
    | none => (st, false)
  | .tabUpdate ts => ({ st with tabs := Tabs.new ts }, true)
  | .other _ => (st, false)

/-- A default style value for concrete test segments. -/
def s0 : Style := {}

/-- Concrete tab: position 0, name "a", active. -/
def tabA : TabInfo := { position := 0, name := strGC "a", active := true }

/-- Concrete tab: position 1, name "b", inactive. -/
def tabB : TabInfo := { position := 1, name := strGC "b", active := false }

/-- Concrete tab: position 2, name "c", inactive. -/
def tabC : TabInfo := { position := 2, name := strGC "c", active := false }

/-- Three short-named tabs, active first: the fold range summary "2  󰜴  3"
is wider than the compact numbers "2" "3". -/
def innerC6 : List TabInfo := [tabA, tabB, tabC]

/-- The default (empty) plugin state. -/
def stEmpty : PluginState := {}

/-- State with only a one-tab layout: its fold tier is wider than a budget
of 1 column. -/
def stC2 : PluginState := { tabs := Tabs.new [tabA] }

/-- State with a single fixed left element of visual width 5. -/
def stC3 : PluginState := { left_elements := [Element.pre [Piece.txt (strGC "abcde")]] }

/-- Style of the clock segment (`bg WHITE`, `fg BLACK`). -/
def clockStyle : Style := { fg := BLACK, bg := WHITE }

/-- State whose right side holds the live clock segment (`max_width(64)`). -/
def stC8 : PluginState :=
  { right_elements := [Element.clockSeg { content := [], style := clockStyle, max_content_width := 64 }] }

/-- Four single-character clusters "abcd". -/
def c5w : GStr := strGC "abcd"

/-- Three single-character clusters "abc". -/
def c5bad : GStr := strGC "abc"

/-- One single-character cluster "a". -/
def c9w : GStr := strGC "a"

/-- One grapheme cluster of two characters: "e" plus a combining acute. -/
def c9bad : GStr := [['e', '́']]

/-- A session list containing no current session. -/
def ssNoCurrent : List SessionInfo := [{ name := strGC "s", is_current_session := false }]

end ZS

namespace ZS

theorem displayLen_append (a b : Rendered) : displayLen (a ++ b) = displayLen a + displayLen b := by
  simp [displayLen]

theorem displayLen_flatten (l : List Rendered) : displayLen l.flatten = (l.map displayLen).sum := by
  induction l with
  | nil => simp [displayLen]
  | cons a l ih => simp [List.flatten, displayLen_append, ih]

theorem displayLen_outOf (mode session : Rendered) (now : GStr) (es : List Element) :
    displayLen (outOf mode session now es) = widthOf mode session now es := by
  simp only [outOf, widthOf, displayLen_flatten, List.map_map]
  rfl

theorem len_digitsRevAux (f n : Nat) : (digitsRevAux f n).length ≤ f := by
  induction f generalizing n with
  | zero => simp [digitsRevAux]
  | succ f ih =>
    simp only [digitsRevAux]
    split
    · simp
    · simpa using ih (n / 10)

theorem natRepr_len_le (n : Nat) : (natRepr n).length ≤ 20 := by
  simpa [natRepr] using len_digitsRevAux 20 n

theorem gchars_ge_len {s : GStr} (h : ∀ g ∈ s, g ≠ ([] : GC)) : s.length ≤ gchars s := by
  induction s with
  | nil => simp [gchars]
  | cons a s ih =>
    have ha : a.length ≠ 0 := by
      simpa [List.length_eq_zero] using h a (List.mem_cons_self a s)
    have hs := ih (fun g hg => h g (List.mem_cons_of_mem _ hg))
    simp only [gchars, List.map_cons, List.sum_cons, List.length_cons]
    have hs2 : s.length ≤ gchars s := hs
    simp only [gchars] at hs2
    omega

theorem gchars_singletons {s : GStr} (h : ∀ g ∈ s, g.length = 1) : gchars s = s.length := by
  induction s with
  | nil => simp [gchars]
  | cons a s ih =>
    have ha : a.length = 1 := h a (List.mem_cons_self a s)
    have hs := ih (fun g hg => h g (List.mem_cons_of_mem _ hg))
    simp only [gchars, List.map_cons, List.sum_cons, List.length_cons] at *
    omega

theorem length_truncate (c : GStr) (m : Nat) (h : 3 ≤ m) :
    (truncate c m).length = if m < c.length then m else c.length := by
  by_cases h2 : m < c.length
  · simp only [truncate, if_pos h2, wrapSub, if_pos h, List.length_append, List.length_take,
      ellipsisGC, List.length_cons, List.length_nil]
    omega
  · simp [truncate, h2]

theorem centerPad_of_le {s : GStr} {m : Nat} (h : m ≤ gchars s) : centerPad s m = s := by
  simp [centerPad, Nat.not_lt.mpr h]

theorem displayLen_seg_render (s : Segment) :
    displayLen s.render = s.begin_cap.length + s.padding_left.length + s.contentField.length
      + s.padding_right.length + s.end_cap.length := by
  simp [Segment.render, displayLen, pieceLen]
  omega

theorem tab_field_len (c : GStr) (sty : Style) :
    (Segment.contentField { content := c, style := sty }).length
      = if 32 < c.length then 32 else c.length := by
  unfold Segment.contentField
  rw [centerPad_of_le (Nat.zero_le _)]
  exact length_truncate c 32 (by omega)

theorem compact_le_full_seg (t : TabInfo) :
    displayLen (Segment.new_compact_tab t).render ≤ displayLen (Segment.new_tab t).render := by
  unfold Segment.new_compact_tab
  by_cases h : t.active = true
  · simp [h]
  · rw [if_neg (by simpa using h)]
    rw [displayLen_seg_render, displayLen_seg_render]
    unfold Segment.new_tab
    simp only
    rw [tab_field_len, tab_field_len]
    have hd : (natRepr ((t.position + 1) % USIZE)).length ≤ 20 := natRepr_len_le _
    simp only [List.length_append]
    split_ifs <;> omega

end ZS

namespace ZS

/-- Claim C1: at render time the emitted tier is the full rendering exactly
when the budget strictly exceeds full's cached width; otherwise the compact
rendering exactly when the budget strictly exceeds compact's cached width;
otherwise the fold rendering, emitted unconditionally (ties fall through to
the next tier). -/
theorem c1_tier_selection (t : Tabs) :
    (t.full.1 < t.max_width ∧ t.display = t.full.2)
    ∨ (t.max_width ≤ t.full.1 ∧ t.compact.1 < t.max_width ∧ t.display = t.compact.2)
    ∨ (t.max_width ≤ t.full.1 ∧ t.max_width ≤ t.compact.1 ∧ t.display = t.fold.2) := by
  by_cases h1 : t.full.1 < t.max_width
  · exact Or.inl ⟨h1, by simp [Tabs.display, h1]⟩
  · by_cases h2 : t.compact.1 < t.max_width
    · exact Or.inr (Or.inl ⟨Nat.le_of_not_lt h1, h2, by simp [Tabs.display, h1, h2]⟩)
    · exact Or.inr (Or.inr ⟨Nat.le_of_not_lt h1, Nat.le_of_not_lt h2,
        by simp [Tabs.display, h1, h2]⟩)

/-- Claim C2, counterexample: a state with no fixed elements and a one-tab
layout rendered at total width 1 (which is at least the fixed width 0)
writes a line of visual width 10, not 1 — the fold tier overflows the
budget and no filler can compensate. -/
theorem c2_counterexample :
    fixedWidth stC2 [] ≤ 1 ∧ displayLen (stC2.render 1 []).1 ≠ 1 := by decide

/-- Claim C2, amended: for any total width at least the combined fixed
width, the written line's visual width is `max` of the total width and
fixed-plus-selected-tier width — i.e. it equals the total width exactly
whenever the selected tab tier also fits the leftover budget, and exceeds
it by the tier's overflow otherwise. -/
theorem c2_render_width (st : PluginState) (cols : Nat) (now : GStr)
    (h : fixedWidth st now ≤ cols) :
    displayLen (st.render cols now).1
      = max cols (fixedWidth st now + selectedTabsWidth st cols now) := by
  have hT : displayLen (Tabs.display { st.tabs with max_width := wrapSub cols (fixedWidth st now) })
      = selectedTabsWidth st cols now := rfl
  have hF : fixedWidth st now
      = widthOf st.mode st.session now st.left_elements
        + widthOf st.mode st.session now st.right_elements := rfl
  unfold PluginState.render renderFill
  by_cases hlt : fixedWidth st now + selectedTabsWidth st cols now < cols
  · rw [if_pos hlt]
    simp only [displayLen_append, displayLen_outOf, hT]
    simp only [displayLen, List.map_cons, List.map_nil, List.sum_cons, List.sum_nil,
      pieceLen, List.length_replicate]
    omega
  · rw [if_neg hlt]
    simp only [displayLen_append, displayLen_outOf, hT]
    simp only [displayLen, List.map_nil, List.sum_nil]
    omega

/-- Claim C2, witness: the empty state rendered at width 5 produces exactly
5 columns. -/
theorem c2_render_width_witness :
    fixedWidth stEmpty [] ≤ 5
    ∧ displayLen (stEmpty.render 5 []).1
        = max 5 (fixedWidth stEmpty [] + selectedTabsWidth stEmpty 5 []) :=
  ⟨by decide, c2_render_width stEmpty 5 [] (by decide)⟩

/-- Claim C3: the code computes the budget as `cols - chars` with an
unchecked `usize` subtraction.  At a state whose fixed elements are 5
columns wide and a terminal of 3 columns, the budget becomes `2^64 - 2`
(release build; a debug build panics), not the claimed clamped 0. -/
theorem c3_code_bug_eval :
    fixedWidth stC3 [] = 5
    ∧ ((stC3.render 3 []).2).tabs.max_width = USIZE - 2
    ∧ USIZE - 2 ≠ 0 := by decide

/-- Claim C4: `Tabs::new` on the empty list evaluates `inner.len() - 1`,
which underflows (panic in debug, wrap in release).  The release result
caches empty full and compact tiers but a fold tier rendering the spurious
range "1  󰜴  0" at visual width 9 — not an empty width-0 rendering. -/
theorem c4_code_bug_eval :
    (Tabs.new []).full = (0, ([] : Rendered))
    ∧ (Tabs.new []).compact = (0, ([] : Rendered))
    ∧ (Tabs.new []).fold.1 = 9
    ∧ (Tabs.new []).fold.1 ≠ 0 := by decide

/-- Claim C5, counterexample: a segment with `max_content_width = 2`
(reachable through the `max_width` builder) and the 3-cluster content "abc"
satisfies the claim's hypothesis, but `max_content_width - 3` wraps, the
whole content is kept, and the rendered content field has width 6, not 2. -/
theorem c5_counterexample :
    2 < c5bad.length
    ∧ (Segment.contentField { content := c5bad, style := s0, max_content_width := 2 }).length ≠ 2 := by
  decide

/-- Claim C5, amended: provided `max_content_width ≥ 3` (the spec assumes
`≥ 4`) and `min_content_width ≤ max_content_width`, any content whose
visual width exceeds `max_content_width` renders as exactly the first
`max_content_width - 3` whole grapheme clusters followed by the 3-column
ellipsis "...", for a content-field visual width of exactly
`max_content_width`. -/
theorem c5_truncation (minw maxw : Nat) (sty : Style) (content : GStr)
    (hg : ∀ g ∈ content, g ≠ ([] : GC))
    (h3 : 3 ≤ maxw) (hle : minw ≤ maxw) (hw : maxw < content.length) :
    Segment.contentField
        { content := content, style := sty, min_content_width := minw, max_content_width := maxw }
      = content.take (maxw - 3) ++ ellipsisGC
    ∧ (Segment.contentField
        { content := content, style := sty, min_content_width := minw, max_content_width := maxw }).length
      = maxw := by
  have htr : truncate content maxw = content.take (maxw - 3) ++ ellipsisGC := by
    simp only [truncate, if_pos hw, wrapSub, if_pos h3]
  have hlen : (content.take (maxw - 3) ++ ellipsisGC).length = maxw := by
    simp only [List.length_append, List.length_take, ellipsisGC, List.length_cons,
      List.length_nil]
    omega
  have hne : ∀ g ∈ content.take (maxw - 3) ++ ellipsisGC, g ≠ ([] : GC) := by
    intro g hgmem
    rcases List.mem_append.mp hgmem with hmem | hmem
    · exact hg g (List.take_subset _ _ hmem)
    · rw [ellipsisGC] at hmem
      fin_cases hmem <;> simp
  have hge : minw ≤ gchars (content.take (maxw - 3) ++ ellipsisGC) := by
    have h1 := gchars_ge_len hne
    omega
  constructor
  · show centerPad (truncate content maxw) minw = _
    rw [htr, centerPad_of_le hge]
  · show (centerPad (truncate content maxw) minw).length = maxw
    rw [htr, centerPad_of_le hge, hlen]

/-- Claim C5, witness: content "abcd" with ceiling 3 truncates to "..." of
width exactly 3. -/
theorem c5_truncation_witness :
    (∀ g ∈ c5w, g ≠ ([] : GC)) ∧ 3 ≤ 3 ∧ 0 ≤ 3 ∧ 3 < c5w.length
    ∧ (Segment.contentField { content := c5w, style := s0, min_content_width := 0, max_content_width := 3 }
        = c5w.take 0 ++ ellipsisGC
      ∧ (Segment.contentField { content := c5w, style := s0, min_content_width := 0, max_content_width := 3 }).length
        = 3) :=
  ⟨by decide, by decide, by decide, by decide,
    c5_truncation 0 3 s0 c5w (by decide) (by decide) (by decide) (by decide)⟩

/-- Claim C6, counterexample: three tabs named "a" "b" "c" with the first
active give cached widths full 21, compact 13, fold 16 — the fold range
summary "2  󰜴  3" (9 columns) is wider than the compact numbers (3 + 3),
so `compact.width >= fold.width` fails. -/
theorem c6_counterexample :
    (Tabs.new innerC6).compact.1 < (Tabs.new innerC6).fold.1 := by decide

/-- Claim C6, amended: for every non-empty tab list the full tier's cached
width is at least the compact tier's (the fold half of the chain does not
hold in general). -/
theorem c6_full_ge_compact (inner : List TabInfo) (h : inner ≠ []) :
    (Tabs.new inner).compact.1 ≤ (Tabs.new inner).full.1 := by
  show displayLen ((inner.map (fun t => (Segment.new_compact_tab t).render)).flatten)
      ≤ displayLen ((inner.map (fun t => (Segment.new_tab t).render)).flatten)
  rw [displayLen_flatten, displayLen_flatten, List.map_map, List.map_map]
  exact List.sum_le_sum (fun t _ => compact_le_full_seg t)

/-- Claim C6, witness: the three-tab list is non-empty and its compact width
13 is at most its full width 21. -/
theorem c6_full_ge_compact_witness :
    innerC6 ≠ [] ∧ (Tabs.new innerC6).compact.1 ≤ (Tabs.new innerC6).full.1 :=
  ⟨by decide, c6_full_ge_compact innerC6 (by decide)⟩

/-- Claim C7: for the single active tab at position 0, main.rs produces a
fold tier consisting of the active segment followed by a spurious
`new_range_tab(1..0)` segment that renders the number "2" (3 columns), a
tab that does not exist — not the active segment alone. -/
theorem c7_code_bug_eval :
    (Tabs.new [tabA]).fold.2
      = (Segment.new_tab tabA).render ++ (Segment.new_range_tab 1 0).render
    ∧ (Tabs.new [tabA]).fold.2 ≠ (Segment.new_tab tabA).render
    ∧ displayLen (Segment.new_range_tab 1 0).render = 3 := by decide

/-- Claim C8, counterexample: the right-hand clock segment re-reads the
wall clock on each render, so two consecutive renders of the unchanged
state with the same width differ as soon as the clock text differs. -/
theorem c8_counterexample :
    (stC8.render 20 (strGC "a")).1 ≠ (stC8.render 20 (strGC "b")).1 := by decide

/-- Claim C8, amended: with the clock reading fixed, re-rendering the state
produced by a render (the only mutation is the tab-budget write-back) at
the same width writes byte-identical output. -/
theorem c8_deterministic (st : PluginState) (cols : Nat) (now : GStr) :
    (((st.render cols now).2).render cols now).1 = (st.render cols now).1 := rfl

/-- Claim C9, counterexample: a grapheme cluster of two characters ("e" plus
combining acute, visual width 1) under `min_content_width = 10`: Rust's
formatter pads by character count (2), so the field gets 8 spaces and has
visual width 9, not 10. -/
theorem c9_counterexample :
    c9bad.length < 10
    ∧ (Segment.contentField { content := c9bad, style := s0, min_content_width := 10 }).length ≠ 10 := by
  decide

/-- Claim C9, amended: for content whose clusters are single characters
(so the formatter's character count equals the visual width) and whose
width is at most `max_content_width` and below `min_content_width`, the
content field is the content centered to exactly `min_content_width`
columns, the extra column of an odd padding going to the trailing side. -/
theorem c9_padding (minw maxw : Nat) (sty : Style) (content : GStr)
    (h1 : ∀ g ∈ content, g.length = 1)
    (hmax : content.length ≤ maxw)
    (hmin : content.length < minw) :
    Segment.contentField
        { content := content, style := sty, min_content_width := minw, max_content_width := maxw }
      = List.replicate ((minw - content.length) / 2) ([' '] : GC) ++ content
          ++ List.replicate ((minw - content.length + 1) / 2) ([' '] : GC)
    ∧ (Segment.contentField
        { content := content, style := sty, min_content_width := minw, max_content_width := maxw }).length
      = minw := by
  have htr : truncate content maxw = content := by
    simp [truncate, Nat.not_lt.mpr hmax]
  have hch : gchars content = content.length := gchars_singletons h1
  constructor
  · show centerPad (truncate content maxw) minw = _
    rw [htr]
    simp only [centerPad, hch]
    rw [if_pos hmin]
  · show (centerPad (truncate content maxw) minw).length = minw
    rw [htr]
    simp only [centerPad, hch]
    rw [if_pos hmin]
    simp only [List.length_append, List.length_replicate]
    omega

/-- Claim C9, witness: "a" under `min_content_width = 4` becomes one leading
and two trailing spaces around the content, width exactly 4. -/
theorem c9_padding_witness :
    (∀ g ∈ c9w, g.length = 1) ∧ c9w.length ≤ 32 ∧ c9w.length < 4
    ∧ (Segment.contentField { content := c9w, style := s0, min_content_width := 4 }
        = List.replicate ((4 - c9w.length) / 2) ([' '] : GC) ++ c9w
            ++ List.replicate ((4 - c9w.length + 1) / 2) ([' '] : GC)
      ∧ (Segment.contentField { content := c9w, style := s0, min_content_width := 4 }).length = 4) :=
  ⟨by decide, by decide, by decide, c9_padding 4 32 s0 c9w (by decide) (by decide) (by decide)⟩

/-- Claim C10: every event outside the three subscribed kinds leaves the
whole plugin state unchanged and returns `false`; a `SessionUpdate` with no
current session likewise leaves the state unchanged and returns `false`. -/
theorem c10_frame (st : PluginState) (n : Nat) (ss : List SessionInfo) :
    st.update (Event.other n) = (st, false)
    ∧ ((∀ s ∈ ss, s.is_current_session = false)
        → st.update (Event.sessionUpdate ss) = (st, false)) := by
  refine ⟨rfl, fun h => ?_⟩
  have hn : ss.find? (fun s => s.is_current_session) = none := by
    rw [List.find?_eq_none]
    intro x hx
    simp [h x hx]
  simp [PluginState.update, hn]

/-- Claim C10, witness: the default state is untouched by an unrelated
event and by a session list with no current session. -/
theorem c10_frame_witness :
    stEmpty.update (Event.other 0) = (stEmpty, false)
    ∧ stEmpty.update (Event.sessionUpdate ssNoCurrent) = (stEmpty, false) :=
  ⟨(c10_frame stEmpty 0 ssNoCurrent).1, (c10_frame stEmpty 0 ssNoCurrent).2 (by decide)⟩

end ZS
